import Mathlib

/-!
Verification development for the HiLyte construction-document backend.

The definitions below are a shallow embedding of the Python sources:

* `backend/services/ai_extraction_service.py` (class `AIExtractionService`)
* `backend/services/credit_service.py` (class `CreditService`)
* `backend/models.py` (`User.get_credit_balance`, `AICreditTransaction`,
  `ExtractedData`)
* `koncurent-hi-lyte-clean/backend/blueprints/ai_extraction.py`
  (endpoints `comprehensive_extract_single_page` and
  `comprehensive_extract_all_pages`)

Conventions used throughout the embedding:

* Python JSON values (the dictionaries produced by `json.loads`) are the
  inductive type `JVal`; `dict.get(k, d)` becomes an association-list
  lookup with a default.
* Monetary amounts and JSON numbers are `ℚ`.  Where the Python code
  performs `float` arithmetic whose rounding is observable (the
  requirements-coverage computation), IEEE-754 binary64
  round-to-nearest-even is modelled exactly on `ℚ` by `roundDouble`
  (normal range only: the inputs in question are ratios of item counts,
  far from overflow/subnormal territory).
* External effects (pytesseract OCR, file reads, Anthropic API calls,
  `json.loads`) are oracle parameters; the calls the pipeline makes are
  recorded in an explicit trace.
* Database commits can fail; a run takes one boolean per commit site
  saying whether that `db.session.commit()` succeeds.  A failed commit
  raises in Python; the embedding follows each caller's `except` handler
  (rollback of the pending session state).
-/

/- Batteries marks the arithmetic on `Rat` `@[irreducible]`; re-opening it
locally lets `decide` evaluate the model on concrete inputs. -/
attribute [local semireducible] Rat.add Rat.sub Rat.mul Rat.inv

namespace HiLyte

/-! ## JSON values -/

/-- A parsed JSON value (the result of Python's `json.loads`). -/
inductive JVal where
  | null
  | bool (b : Bool)
  | num (q : ℚ)
  | str (s : String)
  | arr (xs : List JVal)
  | obj (kvs : List (String × JVal))

/-- Association-list lookup, i.e. Python `dict[k]` / `dict.get(k)`. -/
def jLookup (kvs : List (String × JVal)) (k : String) : Option JVal :=
  match kvs with
  | [] => none
  | (k', v) :: rest => if k' = k then some v else jLookup rest k

/-- Python `dict.get(k, d)` on a `JVal` known to be an object; `none`
when the value is not a dict (where Python would raise
`AttributeError`). -/
def JVal.getD (v : JVal) (k : String) (d : JVal) : Option JVal :=
  match v with
  | JVal.obj kvs => some ((jLookup kvs k).getD d)
  | _ => none

/-- Python truthiness of a JSON value. -/
def JVal.truthy : JVal → Bool
  | JVal.null => false
  | JVal.bool b => b
  | JVal.num q => q ≠ 0
  | JVal.str s => s ≠ ""
  | JVal.arr xs => !xs.isEmpty
  | JVal.obj kvs => !kvs.isEmpty

/-- A JSON value read where Python expects a number: numbers are
themselves, booleans are 0/1 (Python `bool` is an `int`), anything else
makes the surrounding arithmetic raise `TypeError` (`none`). -/
def JVal.asPyNum : JVal → Option ℚ
  | JVal.num q => some q
  | JVal.bool b => some (if b then 1 else 0)
  | _ => none

/-- A JSON value read where Python calls `.lower()` on it: only strings
succeed. -/
def JVal.asStr : JVal → Option String
  | JVal.str s => some s
  | _ => none

/-- Rendering of a JSON value inside a Python f-string.  Only the cases
exercised by the claims (integers, the default `0`) are rendered
exactly; non-integral numbers are abbreviated, which no claim observes. -/
def JVal.render : JVal → String
  | JVal.null => "None"
  | JVal.bool b => if b then "True" else "False"
  | JVal.num q => if q.den = 1 then toString q.num else toString q
  | JVal.str s => s
  | JVal.arr _ => "[...]"
  | JVal.obj _ => "\x7b...\x7d"

/-- Python's substring test `a in b` on strings (`""` is a substring of
everything). -/
def pyIn (a b : String) : Bool :=
  decide (List.IsInfix a.toList b.toList)

/-! ## CSI division matching (`AIExtractionService._find_matching_division`) -/

/-- One available construction division, as produced by
`ConstructionDivision.to_dict()`: the fields the matcher reads.  `id` is
the integer primary key, `code` is unique in the schema. -/
structure DivisionDict where
  id : Int
  code : String
  name : String
  deriving DecidableEq, Repr

/-- The `csiDivision` argument: a JSON dict accessed only through
`.get('id')`, `.get('code')`, `.get('name', '')`.  `id` is a rational
because a JSON `3.0` compares equal to the integer `3` in Python. -/
structure CsiDivisionInput where
  id : Option ℚ
  code : Option String
  name : Option String
  deriving DecidableEq, Repr

/-- `{'id': 1, 'name': 'General', 'code': '01 00 00'}` — the fallback
used when no divisions are available. -/
def defaultDivision : DivisionDict :=
  { id := 1, code := "01 00 00", name := "General" }

/-- First loop of `_find_matching_division`:
`div['id'] == csi_division.get('id') or div['code'] == csi_division.get('code')`. -/
def exactDivMatch (csi : CsiDivisionInput) (d : DivisionDict) : Bool :=
  (csi.id == some (d.id : ℚ)) || (csi.code == some d.code)

/-- Second loop: `division_name in div['name'].lower() or
div['name'].lower() in division_name` where
`division_name = csi_division.get('name', '').lower()`. -/
def fuzzyDivMatch (csi : CsiDivisionInput) (d : DivisionDict) : Bool :=
  let division_name := ((csi.name).getD "").toLower
  pyIn division_name d.name.toLower || pyIn d.name.toLower division_name

/-- `AIExtractionService._find_matching_division`
(`ai_extraction_service.py:456-473`): exact match by id or code, then
fuzzy match by name containment, then the first available division,
then the hard-coded default. -/
def findMatchingDivision (csi : CsiDivisionInput) (divs : List DivisionDict) :
    DivisionDict :=
  match divs.find? (exactDivMatch csi) with
  | some d => d
  | none =>
    match divs.find? (fuzzyDivMatch csi) with
    | some d => d
    | none => divs.headD defaultDivision

/-- View a matched division as the `csiDivision` dict built from its
`id`, `code` and `name` (as the processed item stores it). -/
def divAsInput (d : DivisionDict) : CsiDivisionInput :=
  { id := some (d.id : ℚ), code := some d.code, name := some d.name }

/-- The three `.get` reads of `_find_matching_division` on a dict input:
non-number ids and non-string codes simply never compare equal
(Python `==` does not raise), and a non-string `name` is recorded as
`none` — but see `findMatchingDivisionJ`, which raises in that case
before the name is ever used for matching. -/
def csiInputOfObj (kvs : List (String × JVal)) : CsiDivisionInput :=
  { id := (jLookup kvs "id").bind JVal.asPyNum
    code := (jLookup kvs "code").bind JVal.asStr
    name := (jLookup kvs "name").bind JVal.asStr }

/-- The second loop and the fallback of `_find_matching_division`
(`ai_extraction_service.py:466-473`). -/
def fuzzyOrFirst (csi : CsiDivisionInput) (divs : List DivisionDict) : DivisionDict :=
  match divs.find? (fuzzyDivMatch csi) with
  | some d => d
  | none => divs.headD defaultDivision

/-- `AIExtractionService._find_matching_division` on a *raw* JSON
`csi_division` value, `none` modelling a raise.  The exact id/code loop
returns first; otherwise `division_name = csi_division.get('name',
'').lower()` executes (also when the division list is empty), raising
`AttributeError` when the stored `name` value is not a string; and a
non-dict `csi_division` raises at the first `.get` reached (in the
first loop when the list is non-empty, at the `division_name` line
otherwise) and so never returns.  `findMatchingDivision` above is its
restriction to the non-raising inputs (see
`findMatchingDivisionJ_safety`). -/
def findMatchingDivisionJ (csi_division : JVal) (divs : List DivisionDict) :
    Option DivisionDict :=
  match csi_division with
  | JVal.obj kvs =>
    match divs.find? (exactDivMatch (csiInputOfObj kvs)) with
    | some d => some d
    | none =>
      match jLookup kvs "name" with
      | none => some (fuzzyOrFirst (csiInputOfObj kvs) divs)
      | some (JVal.str _) => some (fuzzyOrFirst (csiInputOfObj kvs) divs)
      | some _ => none
  | _ => none

/-! ## IEEE-754 binary64 model (round to nearest, ties to even)

Python's `/` and `*` on floats are correctly rounded binary64
operations.  For the positive, moderately sized rationals arising in
the coverage computation no overflow or subnormal is reachable, so a
double is represented by its exact rational value. -/

/-- `2^e` as a rational, for an integer exponent. -/
def pow2z (e : ℤ) : ℚ :=
  if 0 ≤ e then ((2 ^ e.toNat : ℕ) : ℚ) else 1 / ((2 ^ (-e).toNat : ℕ) : ℚ)

/-- Fuel-driven base-2 logarithm (structural recursion, so the kernel can
evaluate it; `Nat.log2` itself is defined by well-founded recursion). -/
def log2Fuel : ℕ → ℕ → ℕ
  | 0, _ => 0
  | fuel + 1, n => if 2 ≤ n then log2Fuel fuel (n / 2) + 1 else 0

/-- `⌊log₂ n⌋` for `n ≥ 1` (and `0` at `0`). -/
def natLog2 (n : ℕ) : ℕ := log2Fuel n n

/-- The binade of a positive rational: the unique `e` with
`2^e ≤ x < 2^(e+1)`. -/
def binExp (x : ℚ) : ℤ :=
  let d : ℤ := (natLog2 x.num.natAbs : ℤ) - (natLog2 x.den : ℤ)
  if pow2z d ≤ x then d else d - 1

/-- Round a rational to the nearest integer, ties to even. -/
def roundHalfEvenQ (x : ℚ) : ℤ :=
  let fl := Rat.floor x
  let frac := x - (fl : ℚ)
  if frac < 1 / 2 then fl
  else if frac = 1 / 2 then (if fl % 2 = 0 then fl else fl + 1)
  else fl + 1

/-- Round a nonnegative rational to the nearest binary64 value
(normal range; ties to even). -/
def roundDouble (x : ℚ) : ℚ :=
  if x ≤ 0 then 0
  else
    let e := binExp x
    let m := roundHalfEvenQ (x * pow2z (52 - e))
    (m : ℚ) * pow2z (e - 52)

/-- Correctly rounded binary64 division (both operands assumed exactly
representable, as the item/requirement counts in range are). -/
def fdiv (a b : ℚ) : ℚ := roundDouble (a / b)

/-- Correctly rounded binary64 multiplication. -/
def fmul (a b : ℚ) : ℚ := roundDouble (a * b)

/-- Python `int()` on a float: truncation toward zero. -/
def pyTrunc (q : ℚ) : ℤ :=
  if 0 ≤ q then Rat.floor q else -Rat.floor (-q)

/-! ## Extraction results -/

/-- A processed extracted item, as built by
`_parse_smart_extraction_response`: the `csiDivision` has been resolved
to an available division; the remaining fields keep whatever JSON the
model returned (defaults applied as in the source). -/
structure ProcessedItem where
  itemName : JVal
  category : JVal
  csiDivision : DivisionDict
  procurementData : JVal
  location : JVal
  confidence : JVal

/-- The dict returned by `smart_extraction_analysis` /
`_parse_smart_extraction_response`. -/
structure SmartResult where
  success : Bool
  error : Option String
  extractedItems : List ProcessedItem
  summary : JVal

/-- The dict returned by `enhanced_nlp_analysis`: on the success path
`data` is the parsed NLP JSON. -/
structure NlpResult where
  success : Bool
  data : Option JVal
  error : Option String

/-- The dict returned by `_generate_combined_insights`. -/
structure CombinedInsights where
  totalDataPoints : ℚ
  requirementsCoverage : ℤ
  recommendedActions : List String
  extractionQuality : String
  deriving DecidableEq, Repr

/-- The `except` fallback of `_generate_combined_insights`. -/
def fallbackInsights : CombinedInsights :=
  { totalDataPoints := 0
    requirementsCoverage := 0
    recommendedActions := ["Analysis incomplete - review extraction results"]
    extractionQuality := "poor" }

/-- `requirements_count` as read by `_generate_combined_insights`:
`nlp_result['data'].get('summary', {}).get('totalRequirements', 0)` when
`nlp_result.get('success') and nlp_result.get('data')` is truthy, else
`0`; `none` when one of the dict accesses or the ensuing arithmetic
would raise (caught by the function's `except`, yielding
`fallbackInsights`). -/
def requirementsCount (nlp : NlpResult) : Option ℚ :=
  let data := nlp.data.getD JVal.null
  if nlp.success && data.truthy then
    match data with
    | JVal.obj kvs =>
      match (jLookup kvs "summary").getD (JVal.obj []) with
      | JVal.obj skvs => ((jLookup skvs "totalRequirements").getD (JVal.num 0)).asPyNum
      | _ => none
    | _ => none
  else some 0

/-- `AIExtractionService._generate_combined_insights`
(`ai_extraction_service.py:475-516`).  The requirements-coverage ratio
is computed, as in CPython, with binary64 `/` and `*` followed by
`int()` truncation. -/
def generateCombinedInsights (smart : SmartResult) (nlp : NlpResult) :
    CombinedInsights :=
  let extracted_items_count : ℕ := smart.extractedItems.length
  match requirementsCount nlp with
  | none => fallbackInsights
  | some requirements_count =>
    let total_data_points : ℚ := (extracted_items_count : ℚ) + requirements_count
    let requirements_coverage : ℤ :=
      if 0 < requirements_count ∧ 0 < extracted_items_count then
        min 100 (pyTrunc (fmul (fdiv (extracted_items_count : ℚ) requirements_count) 100))
      else 0
    let quality : String :=
      if 15 ≤ total_data_points ∧ 70 ≤ requirements_coverage then "excellent"
      else if 10 ≤ total_data_points ∧ 50 ≤ requirements_coverage then "good"
      else if 5 ≤ total_data_points ∧ 30 ≤ requirements_coverage then "fair"
      else "poor"
    let recommended_actions : List String :=
      (if extracted_items_count < 5 then
        ["Consider manual extraction for items not detected automatically"] else [])
      ++ (if requirements_coverage < 50 then
        ["Review document for additional specifications and requirements"] else [])
      ++ (if quality = "excellent" then
        ["Document analysis is comprehensive - consider this a template for similar drawings"]
      else [])
    { totalDataPoints := total_data_points
      requirementsCoverage := requirements_coverage
      recommendedActions := recommended_actions
      extractionQuality := quality }

/-! ## Response parsing (`_parse_smart_extraction_response`, `_parse_nlp_response`)

`json.loads` is the Python standard library; it is taken as an oracle
`jsonLoads : String → Option JVal` (`none` = `JSONDecodeError`).  The
string-slicing heuristic around it is modelled exactly. -/

/-- `'\x7b'` and `'\x7d'` (written via codepoints). -/
def lbraceChar : Char := Char.ofNat 123

def rbraceChar : Char := Char.ofNat 125

/-- `start_idx = response_text.find('\x7b')`,
`end_idx = response_text.rfind('\x7d')`,
`json_str = response_text[start_idx:end_idx + 1]`; `none` when either
marker is missing (Python raises `ValueError`, caught by the caller). -/
def extractJsonSlice (s : String) : Option String :=
  let cs := s.toList
  match cs.findIdx? (· = lbraceChar) with
  | none => none
  | some start_idx =>
    match cs.reverse.findIdx? (· = rbraceChar) with
    | none => none
    | some revIdx =>
      let end_idx := cs.length - 1 - revIdx
      some (String.mk ((cs.drop start_idx).take (end_idx + 1 - start_idx)))

/-- The `csiDivision` dict as consumed by `_find_matching_division`:
`none` when `.get('name', '').lower()` would raise (non-string `name`)
or the value is not a dict at all (`.get` raises), aborting the whole
parse. -/
def toCsiInput (v : JVal) : Option CsiDivisionInput :=
  match v with
  | JVal.obj kvs =>
    let nameField : Option (Option String) :=
      match jLookup kvs "name" with
      | none => some none
      | some w => match w.asStr with
        | some s => some (some s)
        | none => none
    match nameField with
    | none => none
    | some nm =>
      some { id := (jLookup kvs "id").bind JVal.asPyNum
             code := (jLookup kvs "code").bind JVal.asStr
             name := nm }
  | _ => none

/-- Python iteration over a value expected to be a list, as it affects
the surrounding `try`: lists iterate; an empty string or empty dict
iterates zero times; anything else raises (directly or at the first
element's `.get`). -/
def pyIterElems : JVal → Option (List JVal)
  | JVal.arr xs => some xs
  | JVal.str s => if s = "" then some [] else none
  | JVal.obj kvs => if kvs.isEmpty then some [] else none
  | _ => none

/-- Processing of one entry of `extractedItems`
(`ai_extraction_service.py:396-412`); `none` when the item makes the
parse raise. -/
def parseSmartItem (divs : List DivisionDict) (v : JVal) : Option ProcessedItem :=
  match v with
  | JVal.obj kvs => do
    let csi ← toCsiInput ((jLookup kvs "csiDivision").getD (JVal.obj []))
    let division := findMatchingDivision csi divs
    let locVal := (jLookup kvs "location").getD (JVal.obj [])
    let conf ← locVal.getD "confidence" (JVal.num (4 / 5))
    some { itemName := (jLookup kvs "itemName").getD (JVal.str "Unnamed Item")
           category := (jLookup kvs "category").getD (JVal.str "material")
           csiDivision := division
           procurementData := (jLookup kvs "procurementData").getD (JVal.obj [])
           location := locVal
           confidence := conf }
  | _ => none

/-- The failure dict of `smart_extraction_analysis` /
`_parse_smart_extraction_response`. -/
def smartFailure (msg : String) : SmartResult :=
  { success := false
    error := some msg
    extractedItems := []
    summary := JVal.obj [("totalItemsFound", JVal.num 0), ("divisionsFound", JVal.num 0)] }

/-- `AIExtractionService._parse_smart_extraction_response`
(`ai_extraction_service.py:381-427`). -/
def parseSmartResponse (jsonLoads : String → Option JVal) (response_text : String)
    (divs : List DivisionDict) : SmartResult :=
  match extractJsonSlice response_text with
  | none => smartFailure "No valid JSON found in response"
  | some json_str =>
    match jsonLoads json_str with
    | none => smartFailure "JSONDecodeError"
    | some parsed =>
      match parsed with
      | JVal.obj kvs =>
        match pyIterElems ((jLookup kvs "extractedItems").getD (JVal.arr [])) with
        | none => smartFailure "TypeError"
        | some xs =>
          match xs.mapM (parseSmartItem divs) with
          | none => smartFailure "AttributeError"
          | some items =>
            { success := true
              error := none
              extractedItems := items
              summary := (jLookup kvs "summary").getD (JVal.obj []) }
      | _ => smartFailure "AttributeError"

/-- The fallback dict of `_parse_nlp_response`
(`ai_extraction_service.py:443-454`). -/
def nlpParseFallback : JVal :=
  JVal.obj
    [("requirements", JVal.arr [])
    , ("compliance", JVal.arr [])
    , ("document_context", JVal.obj [])
    , ("summary", JVal.obj
        [("totalRequirements", JVal.num 0)
        , ("criticalRequirements", JVal.num 0)
        , ("complianceItemsIdentified", JVal.num 0)
        , ("recommendedActions", JVal.arr [])])]

/-- `AIExtractionService._parse_nlp_response`
(`ai_extraction_service.py:429-454`). -/
def parseNlpResponse (jsonLoads : String → Option JVal) (response_text : String) : JVal :=
  match extractJsonSlice response_text with
  | none => nlpParseFallback
  | some json_str =>
    match jsonLoads json_str with
    | none => nlpParseFallback
    | some parsed => parsed

/-! ## Prompts

The prompt templates are transcribed from
`ai_extraction_service.py`; braces, quotes and apostrophes appear as
`\x7b`, `\x7d`, `\x22`, `\x27` escapes, and the constant 12-space
indentation of the Python triple-quoted NLP literal is flattened (no
claim inspects the prompt text beyond identity). -/

/-- `divisions_text` of `_build_smart_extraction_prompt`: the
newline-joined `- code: name` lines of the first 20 available
divisions. -/
def divisionsText (divs : List DivisionDict) : String :=
  String.intercalate "\n" ((divs.take 20).map (fun d => "- " ++ d.code ++ ": " ++ d.name))

/-- `AIExtractionService._build_smart_extraction_prompt`
(`ai_extraction_service.py:295-348`). -/
def buildSmartExtractionPrompt (divs : List DivisionDict) : String :=
  "You are an expert construction document analyzer specializing in extracting procurement data from architectural and engineering drawings.\n\nAVAILABLE CSI DIVISIONS:\n"
  ++ divisionsText divs
  ++ "\n\nYour task is to identify and extract REAL construction items that contractors would actually purchase and install. \n\nEXTRACTION PRIORITIES:\n"
  ++ "1. **SCHEDULES FIRST**: Door/window/equipment schedules contain the richest data\n"
  ++ "2. **SPECIFICATIONS**: Look for material specs, equipment models, performance ratings  \n"
  ++ "3. **QUANTITIES**: Extract actual quantities, not just \x221 EA\x22\n"
  ++ "4. **TECHNICAL DATA**: Sizes, capacities, ratings, materials, finishes\n"
  ++ "5. **PROCUREMENT INFO**: Model numbers, manufacturers, part numbers when available\n\n"
  ++ "RESPONSE FORMAT (JSON only):\n\x7b\n  \x22extractedItems\x22: [\n    \x7b\n      \x22itemName\x22: \x22Clear, specific item name\x22,\n      \x22category\x22: \x22material|equipment|fixture|component|system\x22, \n      \x22csiDivision\x22: \x7b\n        \x22code\x22: \x22XX XX XX\x22,\n        \x22name\x22: \x22Division Name\x22, \n        \x22id\x22: number\n      \x7d,\n"
  ++ "      \x22procurementData\x22: \x7b\n        \x22quantity\x22: \x22actual amount found\x22, \n        \x22unit\x22: \x22SF|LF|EA|CY|TON|LB|etc\x22,\n        \x22specification\x22: \x22grade/type/model/material details\x22, \n        \x22size\x22: \x22dimensions or capacity\x22,\n        \x22manufacturer\x22: \x22brand/company if specified\x22,\n        \x22model\x22: \x22model number if available\x22\n      \x7d,\n"
  ++ "      \x22location\x22: \x7b\n        \x22coordinates\x22: \x7b\x22x\x22: 0, \x22y\x22: 0, \x22width\x22: 100, \x22height\x22: 50\x7d,\n        \x22confidence\x22: 0.8\n      \x7d\n    \x7d\n  ],\n  \x22summary\x22: \x7b\n    \x22totalItemsFound\x22: 0,\n    \x22divisionsFound\x22: 0, \n    \x22extractionApproach\x22: \x22Brief description of what type of data was found\x22\n  \x7d\n\x7d\n\n"
  ++ "Extract REAL construction items with actual procurement value."

/-- `AIExtractionService._build_user_extraction_prompt`
(`ai_extraction_service.py:350-379`); the metadata argument is the
`drawing_metadata` dict (or `None`). -/
def buildUserExtractionPrompt (meta : Option (List (String × JVal))) : String :=
  let metadata_text :=
    match meta with
    | none => ""
    | some m =>
      if m.isEmpty then "" else
        "\nDrawing Context:\n- Sheet: " ++ ((jLookup m "sheetNumber").getD (JVal.str "Unknown")).render
        ++ "\n- Title: " ++ ((jLookup m "sheetName").getD (JVal.str "Unknown")).render
        ++ "\n- Scale: " ++ ((jLookup m "scale").getD (JVal.str "Unknown")).render
        ++ "\n- Discipline: " ++ ((jLookup m "discipline").getD (JVal.str "Unknown")).render
        ++ "\n"
  metadata_text
  ++ "\n\n🔍 **COMPREHENSIVE EXTRACTION MISSION:**\nFind ALL construction items that contractors would actually PURCHASE and INSTALL. Look for:\n\n"
  ++ "**SCHEDULES & TABLES**: Door schedules, window schedules, equipment lists, material lists\n"
  ++ "**SPECIFICATIONS**: Text blocks with material specifications, equipment models, finish requirements  \n"
  ++ "**SYMBOLS & CALLOUTS**: Door marks (A1, B2), equipment tags (AHU-1, P-1), detail callouts\n"
  ++ "**MATERIAL LISTS**: Any lists of construction components with quantities or specifications\n\n"
  ++ "**EXAMPLES OF WHAT TO EXTRACT:**\n"
  ++ "✅ \x22Steel W18x35 Beam\x22 → Division 05 (Metals)  \n"
  ++ "✅ \x22AHU-1: 5 Ton RTU\x22 → Division 23 (HVAC)\n"
  ++ "✅ \x22Door Type A: 3\x27-0\x22 x 7\x27-0\x22 Wood\x22 → Division 08 (Openings)\n"
  ++ "✅ \x226\x22 CMU Block, 8\x27 High\x22 → Division 04 (Masonry)  \n"
  ++ "✅ \x22LED Light Fixture Type L1\x22 → Division 26 (Electrical)\n\n"
  ++ "Extract REAL construction items with actual procurement value - not abstract concepts or sheet information."

/-- The Enhanced-NLP system prompt (`ai_extraction_service.py:156-199`),
flattened. -/
def nlpSystemText : String :=
  "You are an advanced NLP system specialized in construction document analysis. \nPerform multi-stage analysis to identify:\n\n"
  ++ "1. **Requirements Detection**: Find all technical requirements, specifications, and standards\n"
  ++ "2. **Compliance Analysis**: Identify building codes, safety requirements, and regulatory compliance items  \n"
  ++ "3. **Document Understanding**: Extract key relationships and context from the text\n\n"
  ++ "Analyze the provided construction document text and return detailed insights in JSON format:\n\n"
  ++ "\x7b\n  \x22requirements\x22: [\n    \x7b\n      \x22id\x22: \x22unique_id\x22,\n      \x22content\x22: \x22requirement text\x22,\n      \x22category\x22: \x22structural|electrical|mechanical|safety|material|performance\x22,\n      \x22priority\x22: \x22critical|high|medium|low\x22,\n      \x22source\x22: \x22building_code|specification|standard|drawing_note\x22,\n      \x22compliance_standard\x22: \x22applicable standard if identified\x22\n    \x7d\n  ],\n"
  ++ "  \x22compliance\x22: [\n    \x7b\n      \x22requirement\x22: \x22compliance requirement\x22,\n      \x22standard\x22: \x22building code or standard\x22,\n      \x22category\x22: \x22safety|structural|electrical|fire|accessibility\x22,\n      \x22criticality\x22: \x22mandatory|recommended|optional\x22\n    \x7d\n  ],\n"
  ++ "  \x22document_context\x22: \x7b\n    \x22discipline\x22: \x22architectural|structural|mechanical|electrical|civil\x22,\n    \x22project_phase\x22: \x22design|construction|as_built\x22,\n    \x22document_type\x22: \x22drawing|specification|schedule|detail\x22\n  \x7d,\n"
  ++ "  \x22summary\x22: \x7b\n    \x22totalRequirements\x22: 0,\n    \x22criticalRequirements\x22: 0,\n    \x22complianceItemsIdentified\x22: 0,\n    \x22recommendedActions\x22: []\n  \x7d\n\x7d\n\n"
  ++ "Focus on construction-specific terminology and industry standards."

/-! ## The comprehensive extraction pipeline, with an explicit call trace -/

/-- One external call made by the service. -/
inductive CallEv where
  | ocr (path : String) (config : String)
  | readFile (path : String)
  | llm (maxTokens : ℕ) (system : String) (userText : String) (image : Option String)

/-- The environment of external effects: pytesseract, the file system,
the Anthropic client, `json.loads`, and the wall clock
(`time.time() - start_time`). -/
structure ServiceEnv where
  ocrText : String → String
  fileBase64 : String → String
  llmResponse : ℕ → String → String → Option String → String
  jsonLoads : String → Option JVal
  elapsed : ℚ

/-- The Tesseract configuration constant of `perform_ocr`. -/
def ocrConfig : String :=
  "--oem 3 --psm 6 -c tessedit_char_whitelist=0123456789ABCDEFGHIJKLMNOPQRSTUVWXYZabcdefghijklmnopqrstuvwxyz.,;:()[]\x7b\x7d\\\x27\x22-_/\\\\ "

/-- `AIExtractionService.perform_ocr` (`ai_extraction_service.py:62-87`):
the pytesseract call is the oracle; the result is `.strip()`ped. -/
def perform_ocr (env : ServiceEnv) (image_path : String) : String × List CallEv :=
  ((env.ocrText image_path).trim, [CallEv.ocr image_path ocrConfig])

/-- `AIExtractionService.smart_extraction_analysis`
(`ai_extraction_service.py:89-146`). -/
def smart_extraction_analysis (env : ServiceEnv) (ocr_text image_base64 : String)
    (available_divisions : List DivisionDict) (drawing_metadata : Option (List (String × JVal))) :
    SmartResult × List CallEv :=
  let system_prompt := buildSmartExtractionPrompt available_divisions
  let user_prompt := buildUserExtractionPrompt drawing_metadata
  let content_text := user_prompt ++ "\n\nOCR Text: " ++ ocr_text
  let response_text := env.llmResponse 4000 system_prompt content_text (some image_base64)
  (parseSmartResponse env.jsonLoads response_text available_divisions,
   [CallEv.llm 4000 system_prompt content_text (some image_base64)])

/-- `AIExtractionService.enhanced_nlp_analysis`
(`ai_extraction_service.py:148-229`); the `image_base64` parameter is
accepted but (as in the source) not sent. -/
def enhanced_nlp_analysis (env : ServiceEnv) (ocr_text : String)
    (_image_base64 : Option String) : NlpResult × List CallEv :=
  let content_text :=
    "Analyze this construction document text for requirements and compliance:\n\n" ++ ocr_text
  let response_text := env.llmResponse 3000 nlpSystemText content_text none
  ({ success := true
     data := some (parseNlpResponse env.jsonLoads response_text)
     error := none },
   [CallEv.llm 3000 nlpSystemText content_text none])

/-- Python `round(x, 2)` (ties to even), on the exact time value. -/
def round2 (q : ℚ) : ℚ := (roundHalfEvenQ (q * 100) : ℚ) / 100

/-- The `processing` dict of a comprehensive result. -/
structure ProcessingInfo where
  totalTime : ℚ
  ocrCharacters : ℕ
  analysisType : String
  capabilities : List String

/-- The dict returned by `comprehensive_extraction`; the `success` /
`error` keys exist only on its `except` path. -/
structure ComprehensiveResult where
  smartExtraction : Option SmartResult
  enhancedNLP : Option NlpResult
  combinedInsights : Option CombinedInsights
  processing : ProcessingInfo
  success : Option Bool
  error : Option String

/-- `AIExtractionService.comprehensive_extraction`
(`ai_extraction_service.py:231-293`), on the path where the image file
is readable: OCR, file read, smart extraction, enhanced NLP, combined
insights, in that order, with the trace of external calls. -/
def comprehensive_extraction (env : ServiceEnv) (image_path : String)
    (available_divisions : List DivisionDict)
    (drawing_metadata : Option (List (String × JVal))) :
    ComprehensiveResult × List CallEv :=
  let ocrStep := perform_ocr env image_path
  let ocr_text := ocrStep.1
  let image_base64 := env.fileBase64 image_path
  let smartStep :=
    smart_extraction_analysis env ocr_text image_base64 available_divisions drawing_metadata
  let nlpStep := enhanced_nlp_analysis env ocr_text (some image_base64)
  let combined_insights := generateCombinedInsights smartStep.1 nlpStep.1
  ({ smartExtraction := some smartStep.1
     enhancedNLP := some nlpStep.1
     combinedInsights := some combined_insights
     processing :=
       { totalTime := round2 env.elapsed
         ocrCharacters := ocr_text.length
         analysisType := "comprehensive"
         capabilities := ["OCR", "Smart Extraction", "Enhanced NLP", "AI Analysis"] }
     success := none
     error := none },
   ocrStep.2 ++ [CallEv.readFile image_path] ++ smartStep.2 ++ nlpStep.2)

/-! ## Credit ledger (`models.py`, `credit_service.py`)

The database is the committed state; each `db.session.commit()` site
takes a boolean saying whether that commit succeeds (a failing commit
raises, and the embedding follows the caller's `except` handler, which
rolls the pending session state back). -/

/-- A row of `ai_credit_transactions` (`models.py:303-323`), with the
JSON `metadata` dict flattened to the two fields `deduct_credits`
writes (the timestamp is an external effect and is dropped). -/
structure LedgerTx where
  user_id : ℕ
  txType : String
  amount : ℚ
  balance : ℚ
  description : String
  operation : String
  tokensUsed : ℕ
  deriving DecidableEq, Repr

/-- A row of `extracted_data` (`models.py:252-280`), with the JSON
`data` dict flattened to its claim-relevant constituents. -/
structure ExtractedRow where
  drawing_id : ℕ
  user_id : ℕ
  division_id : ℤ
  rowType : String
  source_location : String
  itemName : JVal
  category : JVal
  nlpContextRequirements : Option (List JVal)
  nlpContextCompliance : Option (List JVal)
  confidence : JVal
  extraction_method : String
  ai_model_used : String
  processing_time : ℚ

/-- The committed database state (the two tables the claims concern). -/
structure DB where
  transactions : List LedgerTx
  extracted : List ExtractedRow

/-- `User.get_credit_balance` (`models.py:60-63`): the sum of the
amounts of the user's credit transactions. -/
def getCreditBalance (db : DB) (uid : ℕ) : ℚ :=
  (((db.transactions.filter (fun t => t.user_id = uid))).map (fun t => t.amount)).sum

/-- The single-page estimated cost, `0.25` credits
(`ai_extraction.py:90`); also the per-page estimate of the bulk
endpoint (`ai_extraction.py:231`). -/
def pageEstimate : ℚ := 1 / 4

/-- `$0.0001` per token (`ai_extraction.py:115`). -/
def tokenUnitCost : ℚ := 1 / 10000

/-- `CreditService.has_sufficient_credits` (`credit_service.py:15-26`):
`False` for a missing user, else `balance >= estimated_cost`. -/
def has_sufficient_credits (users : List ℕ) (db : DB) (uid : ℕ) (estimated_cost : ℚ) : Bool :=
  decide (uid ∈ users) && decide (estimated_cost ≤ getCreditBalance db uid)

/-- `CreditService.deduct_credits` (`credit_service.py:28-59`).  Returns
the created transaction and the committed database.  `commitOk = false`
models `db.session.commit()` raising: the handler rolls back and
returns `None`, leaving the ledger unchanged.  Note there is no
sufficiency check: the new balance may be negative. -/
def deduct_credits (users : List ℕ) (db : DB) (uid : ℕ) (amount : ℚ)
    (description : String) (operation : Option String) (tokens_used : Option ℕ)
    (commitOk : Bool) : Option LedgerTx × DB :=
  if uid ∈ users then
    let current_balance := getCreditBalance db uid
    let transaction : LedgerTx :=
      { user_id := uid
        txType := "usage"
        amount := -amount
        balance := current_balance - amount
        description := description
        operation := operation.getD "usage"
        tokensUsed := tokens_used.getD 0 }
    if commitOk then
      (some transaction, { db with transactions := db.transactions ++ [transaction] })
    else
      (none, db)
  else
    (none, db)

/-! ## The extraction endpoints (`blueprints/ai_extraction.py`)

Request-level inputs that the embedding does not recompute (whether the
drawing row exists for this user, whether the page image file exists,
and the value the extraction service returns) are parameters; the
endpoint logic over them is modelled exactly. -/

/-- The `nlpContext.requirements` filter of the save loop
(`ai_extraction.py:152-153`): keep requirements whose `content`
contains the item name, lowercased; `none` when an entry makes the
per-item `try` raise. -/
def filterRequirements (itemNameLower : String) (v : JVal) : Option (List JVal) :=
  match v with
  | JVal.arr xs =>
    match xs.mapM (fun req =>
      match req with
      | JVal.obj kvs =>
        match (jLookup kvs "content").getD (JVal.str "") with
        | JVal.str c => some (req, pyIn itemNameLower c.toLower)
        | _ => none
      | _ => (none : Option (JVal × Bool))) with
    | none => none
    | some ps => some ((ps.filter (fun p => p.2)).map (fun p => p.1))
  | JVal.str s => if s = "" then some [] else none
  | JVal.obj kvs => if kvs.isEmpty then some [] else none
  | _ => none

/-- The `nlpContext.compliance` filter (`ai_extraction.py:154-155`):
keep compliance entries whose lowercased `requirement` contains the
item's category. -/
def filterCompliance (category : String) (v : JVal) : Option (List JVal) :=
  match v with
  | JVal.arr xs =>
    match xs.mapM (fun comp =>
      match comp with
      | JVal.obj kvs =>
        match (jLookup kvs "requirement").getD (JVal.str "") with
        | JVal.str c => some (comp, pyIn category c.toLower)
        | _ => none
      | _ => (none : Option (JVal × Bool))) with
    | none => none
    | some ps => some ((ps.filter (fun p => p.2)).map (fun p => p.1))
  | JVal.str s => if s = "" then some [] else none
  | JVal.obj kvs => if kvs.isEmpty then some [] else none
  | _ => none

/-- The body of the save loop of `comprehensive_extract_single_page`
(`ai_extraction.py:135-175`) for one item: the built `ExtractedData`
row, or `none` when the per-item `try` raises (the item is logged and
skipped). -/
def buildRow (uid drawing_id page : ℕ) (enhanced_nlp : Option NlpResult)
    (processing_time : ℚ) (item : ProcessedItem) : Option ExtractedRow := do
  let nlpCtx : Option (List JVal) × Option (List JVal) ←
    match enhanced_nlp with
    | some nlp =>
      if nlp.success then do
        let itemName ← item.itemName.asStr
        let category ← item.category.asStr
        let nlp_data := nlp.data.getD (JVal.obj [])
        let reqsVal ← nlp_data.getD "requirements" (JVal.arr [])
        let reqs ← filterRequirements itemName.toLower reqsVal
        let compVal ← nlp_data.getD "compliance" (JVal.arr [])
        let comps ← filterCompliance category compVal
        some (some reqs, some comps)
      else some (none, none)
    | none => some (none, none)
  let coords ← item.location.getD "coordinates" (JVal.obj [])
  let xv ← coords.getD "x" (JVal.num 0)
  let yv ← coords.getD "y" (JVal.num 0)
  some { drawing_id := drawing_id
         user_id := uid
         division_id := item.csiDivision.id
         rowType := "comprehensive_extraction"
         source_location :=
           "Page " ++ toString page ++ " (" ++ xv.render ++ "," ++ yv.render ++ ")"
         itemName := item.itemName
         category := item.category
         nlpContextRequirements := nlpCtx.1
         nlpContextCompliance := nlpCtx.2
         confidence := item.confidence
         extraction_method := "comprehensive"
         ai_model_used := "claude-sonnet-4-20250514"
         processing_time := processing_time }

/-- Outcome of one single-page request: HTTP status, committed
database, number of service invocations, and `len(saved_items)` of the
200 response. -/
structure SingleOutcome where
  status : ℕ
  db : DB
  extractionCalls : ℕ
  savedCount : ℕ

/-- `comprehensive_extract_single_page` (`ai_extraction.py:25-208`).

`drawingFound` abstracts the `Drawing.query.filter_by(id, user_id)`
lookup, `imageExists` the `os.path.exists` check, and
`extractionResult` the value returned by
`extraction_service.comprehensive_extraction`.  `commit1Ok` is the
commit inside `deduct_credits`, `commit2Ok` the endpoint's own
`db.session.commit()` for the extracted rows; a failing second commit
raises into the outer handler, which rolls back the pending rows —
the deduction, committed separately, stays. -/
def comprehensive_extract_single_page (users : List ℕ) (db : DB)
    (uid drawing_id page : ℕ) (drawingFound imageExists : Bool)
    (extractionResult : ComprehensiveResult) (commit1Ok commit2Ok : Bool) :
    SingleOutcome :=
  if drawingFound = false then ⟨404, db, 0, 0⟩
  else if imageExists = false then ⟨404, db, 0, 0⟩
  else if has_sufficient_credits users db uid pageEstimate = false then ⟨402, db, 0, 0⟩
  else
    match extractionResult.smartExtraction with
    | none => ⟨500, db, 1, 0⟩
    | some smart_extraction =>
      if smart_extraction.success = false then ⟨500, db, 1, 0⟩
      else
        let processing_time := extractionResult.processing.totalTime
        let tokens_used : ℕ := (max 500 (pyTrunc (processing_time * 200))).toNat
        let credit_cost : ℚ := (tokens_used : ℚ) * tokenUnitCost
        let deductStep := deduct_credits users db uid credit_cost
          ("Comprehensive extraction (OCR+AI+NLP) - " ++ toString tokens_used ++ " tokens")
          (some "comprehensive_extraction") (some tokens_used) commit1Ok
        match deductStep.1 with
        | none => ⟨500, deductStep.2, 1, 0⟩
        | some _ =>
          let saved_items := smart_extraction.extractedItems.filterMap
            (buildRow uid drawing_id page extractionResult.enhancedNLP processing_time)
          if commit2Ok then
            ⟨200, { deductStep.2 with extracted := deductStep.2.extracted ++ saved_items },
             1, saved_items.length⟩
          else
            ⟨500, deductStep.2, 1, 0⟩

/-- Outcome of one bulk request: HTTP status, committed database,
service invocations, `processedPages` (`len(all_results)`) and
`totalItemsExtracted` of the response. -/
structure BulkOutcome where
  status : ℕ
  db : DB
  extractionCalls : ℕ
  processedPages : ℕ
  totalSaved : ℕ

/-- Loop state of the bulk endpoint. -/
structure BulkAcc where
  db : DB
  extractionCalls : ℕ
  all_results : ℕ
  total_saved_items : ℕ

/-- One iteration of the page loop of `comprehensive_extract_all_pages`
(`ai_extraction.py:252-311`).  For a page whose image exists the
service runs; if its smart extraction succeeded, the code then
evaluates `self._save_extraction_results(...)` — but the endpoint is a
plain function, `self` is an unbound name, and the evaluation raises
`NameError` *before* the save, the credit deduction and the
`all_results.append` below it; the per-page `except Exception` handler
logs and continues.  Unsuccessful pages fall through silently.  Either
way the iteration changes nothing. -/
def bulkPageStep (pageImage : ℕ → Bool) (pageResult : ℕ → ComprehensiveResult)
    (acc : BulkAcc) (page : ℕ) : BulkAcc :=
  if pageImage page = false then acc
  else
    let page_result := pageResult page
    let acc := { acc with extractionCalls := acc.extractionCalls + 1 }
    match page_result.smartExtraction with
    | some s =>
      if s.success then
        -- `page_saved_items = self._save_extraction_results(...)` raises
        -- NameError here; nothing below this line in the loop body runs.
        acc
      else acc
    | none => acc

/-- `comprehensive_extract_all_pages` (`ai_extraction.py:210-337`). -/
def comprehensive_extract_all_pages (users : List ℕ) (db : DB) (uid _drawing_id : ℕ)
    (drawingFound : Bool) (total_pages : ℕ) (pageImage : ℕ → Bool)
    (pageResult : ℕ → ComprehensiveResult) (commitOk : Bool) : BulkOutcome :=
  if drawingFound = false then ⟨404, db, 0, 0, 0⟩
  else
    let tp := if total_pages = 0 then 1 else total_pages
    let estimated_cost : ℚ := (tp : ℚ) * pageEstimate
    if has_sufficient_credits users db uid estimated_cost = false then ⟨402, db, 0, 0, 0⟩
    else
      let final := (List.range' 1 tp).foldl (bulkPageStep pageImage pageResult) ⟨db, 0, 0, 0⟩
      -- the trailing `db.session.commit()`: nothing is pending, so the
      -- committed state is unchanged whether it succeeds (200) or raises
      -- into the outer handler (rollback, 500)
      if commitOk then
        ⟨200, final.db, final.extractionCalls, final.all_results, final.total_saved_items⟩
      else
        ⟨500, final.db, final.extractionCalls, final.all_results, final.total_saved_items⟩

/-- `smart_extraction.get('success', False)` on an
`extraction_result.get('smartExtraction', {})`. -/
def smartSucceeded (r : ComprehensiveResult) : Bool :=
  match r.smartExtraction with
  | some s => s.success
  | none => false

/-! ## Helper lemmas -/

theorem find?_eq_some_of_unique {α : Type} (p : α → Bool) (l : List α) (d : α)
    (hd : d ∈ l) (hpd : p d = true) (huniq : ∀ x ∈ l, p x = true → x = d) :
    l.find? p = some d := by
  induction l with
  | nil => cases hd
  | cons a tl ih =>
    by_cases hpa : p a = true
    · have : a = d := huniq a (List.mem_cons_self a tl) hpa
      subst this
      simp [List.find?, hpa]
    · have hne : a ≠ d := fun h => hpa (h ▸ hpd)
      have hdtl : d ∈ tl := by
        rcases List.mem_cons.1 hd with h | h
        · exact absurd h.symm hne
        · exact h
      have := ih hdtl (fun x hx hpx => huniq x (List.mem_cons_of_mem a hx) hpx)
      simp [List.find?, hpa, this]

theorem findMatchingDivision_mem (csi : CsiDivisionInput) (divs : List DivisionDict)
    (hne : divs ≠ []) : findMatchingDivision csi divs ∈ divs := by
  unfold findMatchingDivision
  cases h1 : divs.find? (exactDivMatch csi) with
  | some d => exact List.mem_of_find?_eq_some h1
  | none =>
    cases h2 : divs.find? (fuzzyDivMatch csi) with
    | some d => exact List.mem_of_find?_eq_some h2
    | none =>
      cases divs with
      | nil => exact absurd rfl hne
      | cons a tl => exact List.mem_cons_self a tl

/-! ## C7: fuzzy-match fallback — corrected (the matcher can raise) -/

theorem fuzzyOrFirst_mem (csi : CsiDivisionInput) (divs : List DivisionDict)
    (hne : divs ≠ []) : fuzzyOrFirst csi divs ∈ divs := by
  unfold fuzzyOrFirst
  cases h : divs.find? (fuzzyDivMatch csi) with
  | some d => exact List.mem_of_find?_eq_some h
  | none =>
    cases divs with
    | nil => exact absurd rfl hne
    | cons a tl => exact List.mem_cons_self a tl

theorem findMatchingDivision_eq_fuzzyOrFirst (csi : CsiDivisionInput)
    (divs : List DivisionDict) (h : divs.find? (exactDivMatch csi) = none) :
    findMatchingDivision csi divs = fuzzyOrFirst csi divs := by
  unfold findMatchingDivision fuzzyOrFirst
  rw [h]

/-- Counterexample to C7: `_find_matching_division` does raise.  On the
non-empty division list `[Concrete]` and the csiDivision dict
`{'name': null}` — no exact id/code match — the source evaluates
`csi_division.get('name', '').lower()` on `None` and raises
`AttributeError` (modelled as `none`) instead of returning an element
of the list. -/
theorem findMatchingDivisionJ_raises_counterexample :
    findMatchingDivisionJ (JVal.obj [("name", JVal.null)]) [⟨3, "03 00 00", "Concrete"⟩] = none
    ∧ ([⟨3, "03 00 00", "Concrete"⟩] : List DivisionDict) ≠ [] :=
  ⟨by decide, by decide⟩

/-- C7, amended.  For every csiDivision input on which
`_find_matching_division` returns at all, the result is an element of
the (non-empty) available list, or the fixed default
`{'id': 1, 'name': 'General', 'code': '01 00 00'}` for an empty list;
the match order is exact id/code first, then lowercased-name
containment in either direction, then the first element.  A dict input
whose `name` value is a string or absent never raises (it agrees with
the total restriction `findMatchingDivision`); but a dict with a
non-string `name` value raises at `.lower()` whenever no exact id/code
match exists, and a non-dict input always raises at `.get`. -/
theorem findMatchingDivisionJ_safety (kvs : List (String × JVal)) (v : JVal)
    (divs : List DivisionDict) :
    ((jLookup kvs "name" = none ∨ ∃ s, jLookup kvs "name" = some (JVal.str s)) →
      findMatchingDivisionJ (JVal.obj kvs) divs
        = some (findMatchingDivision (csiInputOfObj kvs) divs))
    ∧ (∀ d, findMatchingDivisionJ (JVal.obj kvs) divs = some d →
        (divs ≠ [] → d ∈ divs) ∧ (divs = [] → d = defaultDivision))
    ∧ (∀ d, divs.find? (exactDivMatch (csiInputOfObj kvs)) = some d →
        findMatchingDivisionJ (JVal.obj kvs) divs = some d)
    ∧ (divs.find? (exactDivMatch (csiInputOfObj kvs)) = none →
        (jLookup kvs "name" = none ∨ ∃ s, jLookup kvs "name" = some (JVal.str s)) →
        ∀ d, divs.find? (fuzzyDivMatch (csiInputOfObj kvs)) = some d →
          findMatchingDivisionJ (JVal.obj kvs) divs = some d)
    ∧ (divs.find? (exactDivMatch (csiInputOfObj kvs)) = none →
        (jLookup kvs "name" = none ∨ ∃ s, jLookup kvs "name" = some (JVal.str s)) →
        divs.find? (fuzzyDivMatch (csiInputOfObj kvs)) = none →
        findMatchingDivisionJ (JVal.obj kvs) divs = some (divs.headD defaultDivision))
    ∧ (∀ w, jLookup kvs "name" = some w → (∀ s, w ≠ JVal.str s) →
        divs.find? (exactDivMatch (csiInputOfObj kvs)) = none →
        findMatchingDivisionJ (JVal.obj kvs) divs = none)
    ∧ ((∀ kvs', v ≠ JVal.obj kvs') → findMatchingDivisionJ v divs = none) := by
  refine ⟨?_, ?_, ?_, ?_, ?_, ?_, ?_⟩
  · intro hname
    cases hex : divs.find? (exactDivMatch (csiInputOfObj kvs)) with
    | some d =>
      have h1 : findMatchingDivisionJ (JVal.obj kvs) divs = some d := by
        simp only [findMatchingDivisionJ]; rw [hex]
      have h2 : findMatchingDivision (csiInputOfObj kvs) divs = d := by
        unfold findMatchingDivision; rw [hex]
      rw [h1, h2]
    | none =>
      have h2 := findMatchingDivision_eq_fuzzyOrFirst (csiInputOfObj kvs) divs hex
      rcases hname with h | ⟨s, h⟩
      · simp only [findMatchingDivisionJ]; rw [hex, h, h2]
      · simp only [findMatchingDivisionJ]; rw [hex, h, h2]
  · intro d hd
    simp only [findMatchingDivisionJ] at hd
    cases hex : divs.find? (exactDivMatch (csiInputOfObj kvs)) with
    | some d' =>
      rw [hex] at hd
      injection hd with hd'
      subst hd'
      constructor
      · intro _; exact List.mem_of_find?_eq_some hex
      · intro hempty; subst hempty; simp [List.find?] at hex
    | none =>
      rw [hex] at hd
      cases hnm : jLookup kvs "name" with
      | none =>
        rw [hnm] at hd
        injection hd with hd'
        subst hd'
        refine ⟨fuzzyOrFirst_mem _ _, ?_⟩
        intro hempty; subst hempty; rfl
      | some w =>
        rw [hnm] at hd
        cases w with
        | str s =>
          injection hd with hd'
          subst hd'
          refine ⟨fuzzyOrFirst_mem _ _, ?_⟩
          intro hempty; subst hempty; rfl
        | null => cases hd
        | bool b => cases hd
        | num q => cases hd
        | arr xs => cases hd
        | obj kvs' => cases hd
  · intro d hex
    simp only [findMatchingDivisionJ]; rw [hex]
  · intro hex hname d hfz
    have hff : fuzzyOrFirst (csiInputOfObj kvs) divs = d := by
      unfold fuzzyOrFirst; rw [hfz]
    rcases hname with h | ⟨s, h⟩
    · simp only [findMatchingDivisionJ]; rw [hex, h, hff]
    · simp only [findMatchingDivisionJ]; rw [hex, h, hff]
  · intro hex hname hfz
    have hff : fuzzyOrFirst (csiInputOfObj kvs) divs = divs.headD defaultDivision := by
      unfold fuzzyOrFirst; rw [hfz]
    rcases hname with h | ⟨s, h⟩
    · simp only [findMatchingDivisionJ]; rw [hex, h, hff]
    · simp only [findMatchingDivisionJ]; rw [hex, h, hff]
  · intro w hw hnstr hex
    simp only [findMatchingDivisionJ]
    rw [hex, hw]
    cases w with
    | str s => exact absurd rfl (hnstr s)
    | null => rfl
    | bool b => rfl
    | num q => rfl
    | arr xs => rfl
    | obj kvs' => rfl
  · intro hv
    cases v with
    | obj kvs' => exact absurd rfl (hv kvs')
    | null => rfl
    | bool b => rfl
    | num q => rfl
    | str s => rfl
    | arr xs => rfl

/-- Witness for the amended C7: a string-named dict agrees with the
total restriction (and hence lands in the list), and a non-dict input
raises. -/
theorem findMatchingDivisionJ_safety_witness :
    findMatchingDivisionJ (JVal.obj [("name", JVal.str "open")])
        [⟨3, "03 00 00", "Concrete"⟩, ⟨8, "08 00 00", "Openings"⟩]
      = some (findMatchingDivision (csiInputOfObj [("name", JVal.str "open")])
          [⟨3, "03 00 00", "Concrete"⟩, ⟨8, "08 00 00", "Openings"⟩])
    ∧ findMatchingDivisionJ (JVal.str "not a dict") [⟨3, "03 00 00", "Concrete"⟩] = none :=
  ⟨(findMatchingDivisionJ_safety [("name", JVal.str "open")] (JVal.str "not a dict")
      [⟨3, "03 00 00", "Concrete"⟩, ⟨8, "08 00 00", "Openings"⟩]).1 (Or.inr ⟨"open", rfl⟩),
   (findMatchingDivisionJ_safety [("name", JVal.str "open")] (JVal.str "not a dict")
      [⟨3, "03 00 00", "Concrete"⟩]).2.2.2.2.2.2 (fun _ => nofun)⟩

/-! ## C5: idempotent taxonomy matching -/

/-- C5.  The schema guarantees distinct division ids (primary key) and
distinct codes (`unique=True`); under these constraints, re-running
`_find_matching_division` on the division it returned (its `id`, `code`
and `name` as the `csiDivision` argument) returns the same division. -/
theorem findMatchingDivision_idempotent (csi : CsiDivisionInput) (divs : List DivisionDict)
    (hne : divs ≠ [])
    (hids : divs.Pairwise (fun a b => a.id ≠ b.id))
    (hcodes : divs.Pairwise (fun a b => a.code ≠ b.code)) :
    findMatchingDivision (divAsInput (findMatchingDivision csi divs)) divs
      = findMatchingDivision csi divs := by
  have hmem : findMatchingDivision csi divs ∈ divs := findMatchingDivision_mem csi divs hne
  set d := findMatchingDivision csi divs with hd
  have hpd : exactDivMatch (divAsInput d) d = true := by
    simp [exactDivMatch, divAsInput]
  have huniq : ∀ x ∈ divs, exactDivMatch (divAsInput d) x = true → x = d := by
    intro x hx hpx
    by_contra hxd
    have hidne : d.id ≠ x.id :=
      hids.forall (fun _ _ h => Ne.symm h) hmem hx (Ne.symm hxd)
    have hcodene : d.code ≠ x.code :=
      hcodes.forall (fun _ _ h => Ne.symm h) hmem hx (Ne.symm hxd)
    simp [exactDivMatch, divAsInput] at hpx
    rcases hpx with h | h
    · exact hidne (by exact_mod_cast h)
    · exact hcodene h
  have hfind : divs.find? (exactDivMatch (divAsInput d)) = some d :=
    find?_eq_some_of_unique _ divs d hmem hpd huniq
  unfold findMatchingDivision
  rw [hfind]

/-- Witness for C5 at a concrete taxonomy and input. -/
theorem findMatchingDivision_idempotent_witness :
    findMatchingDivision
        (divAsInput (findMatchingDivision ⟨none, none, some "open"⟩
          [⟨3, "03 00 00", "Concrete"⟩, ⟨8, "08 00 00", "Openings"⟩]))
        [⟨3, "03 00 00", "Concrete"⟩, ⟨8, "08 00 00", "Openings"⟩]
      = findMatchingDivision ⟨none, none, some "open"⟩
          [⟨3, "03 00 00", "Concrete"⟩, ⟨8, "08 00 00", "Openings"⟩] :=
  findMatchingDivision_idempotent ⟨none, none, some "open"⟩ _
    (by decide) (by decide) (by decide)

/-! ## C8: the quality-scoring heuristic -/

/-- The claim's reading of the coverage formula:
`min(100, ⌊(n / r) * 100⌋)` with exact (real-number) arithmetic. -/
def claimedCoverageExact (n r : ℕ) : ℤ :=
  min 100 (Rat.floor (((n : ℚ) / (r : ℚ)) * 100))

/-- The coverage as the code computes it when `n > 0` and `r > 0`:
binary64 division and multiplication followed by `int()` truncation
(and `0` otherwise). -/
def coverageIEEE (n : ℕ) (r : ℚ) : ℤ :=
  if 0 < r ∧ 0 < n then min 100 (pyTrunc (fmul (fdiv (n : ℚ) r) 100)) else 0

/-- The quality label as a function of total data points and coverage,
following the claim's thresholds. -/
def qualityLabel (td : ℚ) (cov : ℤ) : String :=
  if 15 ≤ td ∧ 70 ≤ cov then "excellent"
  else if 10 ≤ td ∧ 50 ≤ cov then "good"
  else if 5 ≤ td ∧ 30 ≤ cov then "fair"
  else "poor"

/-- Fixture: a well-formed processed item. -/
def item0 : ProcessedItem :=
  { itemName := JVal.str "Door"
    category := JVal.str "material"
    csiDivision := ⟨8, "08 00 00", "Openings"⟩
    procurementData := JVal.obj []
    location := JVal.obj []
    confidence := JVal.num (4 / 5) }

/-- Fixture: a successful smart extraction with 29 items. -/
def smart29 : SmartResult :=
  { success := true, error := none
    extractedItems := List.replicate 29 item0, summary := JVal.obj [] }

/-- Fixture: a successful NLP result reporting 50 total requirements. -/
def nlp50 : NlpResult :=
  { success := true
    data := some (JVal.obj [("summary", JVal.obj [("totalRequirements", JVal.num 50)])])
    error := none }

set_option maxRecDepth 10000 in
/-- Counterexample to C8: with 29 extracted items and 50 reported
requirements the code computes a coverage of 57 — CPython evaluates
`int((29/50)*100)` to `57` because `29/50` rounds to
`0.57999999999999996…` — while the claim's
`min(100, floor((n/r)*100))` is 58. -/
theorem generateCombinedInsights_coverage_counterexample :
    (generateCombinedInsights smart29 nlp50).requirementsCoverage = 57
    ∧ claimedCoverageExact 29 50 = 58
    ∧ (generateCombinedInsights smart29 nlp50).requirementsCoverage
        ≠ claimedCoverageExact 29 50 := by
  refine ⟨by decide, by decide, by decide⟩

/-- C8, amended: `totalDataPoints = n + r`; the coverage is
`min(100, int((n/r)*100))` computed in binary64 arithmetic when
`n > 0` and `r > 0` (which can be one less than the exact
`floor((n/r)*100)`) and `0` otherwise; and the quality label follows
the stated thresholds. -/
theorem generateCombinedInsights_amended (smart : SmartResult) (nlp : NlpResult)
    (kvs skvs : List (String × JVal)) (r : ℚ)
    (hsucc : nlp.success = true)
    (hdata : nlp.data = some (JVal.obj kvs))
    (hne : kvs ≠ [])
    (hsum : jLookup kvs "summary" = some (JVal.obj skvs))
    (htr : jLookup skvs "totalRequirements" = some (JVal.num r)) :
    (generateCombinedInsights smart nlp).totalDataPoints
        = (smart.extractedItems.length : ℚ) + r
    ∧ (generateCombinedInsights smart nlp).requirementsCoverage
        = coverageIEEE smart.extractedItems.length r
    ∧ (generateCombinedInsights smart nlp).extractionQuality
        = qualityLabel ((smart.extractedItems.length : ℚ) + r)
            (coverageIEEE smart.extractedItems.length r) := by
  have hrc : requirementsCount nlp = some r := by
    unfold requirementsCount
    rw [hdata, hsucc]
    simp [JVal.truthy, List.isEmpty_iff, hne, hsum, htr, JVal.asPyNum]
  unfold generateCombinedInsights
  rw [hrc]
  exact ⟨rfl, rfl, rfl⟩

/-- Witness for the amended C8 at the concrete fixture (29 items, 50
requirements). -/
theorem generateCombinedInsights_amended_witness :
    (generateCombinedInsights smart29 nlp50).totalDataPoints
        = (smart29.extractedItems.length : ℚ) + 50
    ∧ (generateCombinedInsights smart29 nlp50).requirementsCoverage
        = coverageIEEE smart29.extractedItems.length 50
    ∧ (generateCombinedInsights smart29 nlp50).extractionQuality
        = qualityLabel ((smart29.extractedItems.length : ℚ) + 50)
            (coverageIEEE smart29.extractedItems.length 50) :=
  generateCombinedInsights_amended smart29 nlp50 _ _ 50 rfl rfl
    (List.cons_ne_nil _ _) rfl rfl

/-! ## C6: pipeline steps and order -/

/-- C6.  On one page image the pipeline performs OCR first, then makes
exactly two LLM calls — the smart-extraction call (model limit 4000
tokens, the division-taxonomy system prompt, the page image attached)
and the NLP requirements/compliance call (3000 tokens, no image) — both
carrying the same OCR text in their user content; it then reconciles
the two parsed results into the combined insights, and returns the
`smartExtraction`, `enhancedNLP` and `combinedInsights` components
together with the processing metadata. -/
theorem comprehensive_extraction_pipeline (env : ServiceEnv) (image_path : String)
    (divs : List DivisionDict) (meta : Option (List (String × JVal))) :
    (comprehensive_extraction env image_path divs meta).2 =
      [CallEv.ocr image_path ocrConfig,
       CallEv.readFile image_path,
       CallEv.llm 4000 (buildSmartExtractionPrompt divs)
         (buildUserExtractionPrompt meta ++ "\n\nOCR Text: " ++ (env.ocrText image_path).trim)
         (some (env.fileBase64 image_path)),
       CallEv.llm 3000 nlpSystemText
         ("Analyze this construction document text for requirements and compliance:\n\n"
           ++ (env.ocrText image_path).trim)
         none]
    ∧ (comprehensive_extraction env image_path divs meta).1.smartExtraction =
        some (parseSmartResponse env.jsonLoads
          (env.llmResponse 4000 (buildSmartExtractionPrompt divs)
            (buildUserExtractionPrompt meta ++ "\n\nOCR Text: " ++ (env.ocrText image_path).trim)
            (some (env.fileBase64 image_path))) divs)
    ∧ (comprehensive_extraction env image_path divs meta).1.enhancedNLP =
        some { success := true
               data := some (parseNlpResponse env.jsonLoads
                 (env.llmResponse 3000 nlpSystemText
                   ("Analyze this construction document text for requirements and compliance:\n\n"
                     ++ (env.ocrText image_path).trim) none))
               error := none }
    ∧ (comprehensive_extraction env image_path divs meta).1.combinedInsights =
        some (generateCombinedInsights
          (parseSmartResponse env.jsonLoads
            (env.llmResponse 4000 (buildSmartExtractionPrompt divs)
              (buildUserExtractionPrompt meta ++ "\n\nOCR Text: " ++ (env.ocrText image_path).trim)
              (some (env.fileBase64 image_path))) divs)
          { success := true
            data := some (parseNlpResponse env.jsonLoads
              (env.llmResponse 3000 nlpSystemText
                ("Analyze this construction document text for requirements and compliance:\n\n"
                  ++ (env.ocrText image_path).trim) none))
            error := none })
    ∧ (comprehensive_extraction env image_path divs meta).1.processing =
        { totalTime := round2 env.elapsed
          ocrCharacters := (env.ocrText image_path).trim.length
          analysisType := "comprehensive"
          capabilities := ["OCR", "Smart Extraction", "Enhanced NLP", "AI Analysis"] } :=
  ⟨rfl, rfl, rfl, rfl, rfl⟩

/-! ## Fixtures for the endpoint claims -/

/-- Fixture: a successful NLP result with empty requirement and
compliance lists. -/
def nlp0 : NlpResult :=
  { success := true
    data := some (JVal.obj
      [("requirements", JVal.arr []), ("compliance", JVal.arr [])
      , ("summary", JVal.obj [("totalRequirements", JVal.num 0)])])
    error := none }

/-- Fixture: a successful smart extraction with one item. -/
def smart0 : SmartResult :=
  { success := true, error := none, extractedItems := [item0], summary := JVal.obj [] }

/-- Fixture: a successful comprehensive result, one second of
processing time. -/
def res0 : ComprehensiveResult :=
  { smartExtraction := some smart0, enhancedNLP := some nlp0, combinedInsights := none
    processing :=
      { totalTime := 1, ocrCharacters := 0, analysisType := "comprehensive", capabilities := [] }
    success := none, error := none }

/-- Fixture: the same result after 13 seconds of processing
(2600 tokens, cost 0.26). -/
def res13 : ComprehensiveResult :=
  { res0 with processing := { res0.processing with totalTime := 13 } }

/-- Fixture: user 7 with one purchase of 1 credit. -/
def db0 : DB :=
  { transactions := [⟨7, "purchase", 1, 1, "Initial purchase", "purchase", 0⟩]
    extracted := [] }

/-- Fixture: user 7 with a balance of exactly 0.25. -/
def db25 : DB :=
  { transactions := [⟨7, "purchase", 1 / 4, 1 / 4, "Initial purchase", "purchase", 0⟩]
    extracted := [] }

/-- Fixture: an empty ledger (balance 0 for everyone). -/
def dbEmpty : DB := { transactions := [], extracted := [] }

/-! ## Ledger lemmas -/

theorem getCreditBalance_append (txs : List LedgerTx) (ex ex' : List ExtractedRow)
    (uid : ℕ) (tx : LedgerTx) (h : tx.user_id = uid) :
    getCreditBalance ⟨txs ++ [tx], ex⟩ uid = getCreditBalance ⟨txs, ex'⟩ uid + tx.amount := by
  simp [getCreditBalance, List.filter_append, h]

/-- The transaction record `deduct_credits` constructs. -/
def usageTx (db : DB) (uid : ℕ) (amount : ℚ) (description : String)
    (operation : Option String) (tokens_used : Option ℕ) : LedgerTx :=
  { user_id := uid
    txType := "usage"
    amount := -amount
    balance := getCreditBalance db uid - amount
    description := description
    operation := operation.getD "usage"
    tokensUsed := tokens_used.getD 0 }

/-! ## C10: the ledger invariant of `deduct_credits` -/

/-- C10.  On success `deduct_credits` stores, on the new transaction, a
`balance` equal to the user's prior balance minus the deducted amount;
that stored running balance equals `get_credit_balance` immediately
after the call; and on any failure (commit error, missing user) the
ledger is left unchanged and `None` is returned. -/
theorem deduct_credits_ledger_invariant (users : List ℕ) (db : DB) (uid : ℕ)
    (amount : ℚ) (desc : String) (op : Option String) (tok : Option ℕ) (c : Bool) :
    (uid ∈ users →
      (deduct_credits users db uid amount desc op tok true).1
          = some (usageTx db uid amount desc op tok)
      ∧ (deduct_credits users db uid amount desc op tok true).2.transactions
          = db.transactions ++ [usageTx db uid amount desc op tok]
      ∧ (usageTx db uid amount desc op tok).balance = getCreditBalance db uid - amount
      ∧ getCreditBalance (deduct_credits users db uid amount desc op tok true).2 uid
          = (usageTx db uid amount desc op tok).balance)
    ∧ ((deduct_credits users db uid amount desc op tok false).1 = none
      ∧ (deduct_credits users db uid amount desc op tok false).2 = db)
    ∧ (uid ∉ users →
      (deduct_credits users db uid amount desc op tok c).1 = none
      ∧ (deduct_credits users db uid amount desc op tok c).2 = db) := by
  refine ⟨?_, ?_, ?_⟩
  · intro hmem
    refine ⟨?_, ?_, rfl, ?_⟩
    · simp [deduct_credits, hmem, usageTx]
    · simp [deduct_credits, hmem, usageTx]
    · have h2 : (deduct_credits users db uid amount desc op tok true).2
          = { db with transactions := db.transactions ++ [usageTx db uid amount desc op tok] } := by
        simp [deduct_credits, hmem, usageTx]
      rw [h2]
      have := getCreditBalance_append db.transactions db.extracted db.extracted uid
        (usageTx db uid amount desc op tok) rfl
      simp only [usageTx] at this ⊢
      rw [show ({ db with transactions := db.transactions ++ [usageTx db uid amount desc op tok] } : DB)
            = ⟨db.transactions ++ [usageTx db uid amount desc op tok], db.extracted⟩ from rfl] at *
      rw [this]
      ring
  · unfold deduct_credits
    by_cases hmem : uid ∈ users <;> simp [hmem]
  · intro hmem
    unfold deduct_credits
    simp [hmem]

/-- Witness for C10 at a concrete ledger. -/
theorem deduct_credits_ledger_invariant_witness :
    (deduct_credits [7] db0 7 (1 / 2) "usage test" none none true).1
        = some (usageTx db0 7 (1 / 2) "usage test" none none)
    ∧ getCreditBalance (deduct_credits [7] db0 7 (1 / 2) "usage test" none none true).2 7
        = (usageTx db0 7 (1 / 2) "usage test" none none).balance
    ∧ (deduct_credits [7] db0 7 (1 / 2) "usage test" none none false).1 = none :=
  ⟨((deduct_credits_ledger_invariant [7] db0 7 (1 / 2) "usage test" none none true).1
      (by decide)).1,
   ((deduct_credits_ledger_invariant [7] db0 7 (1 / 2) "usage test" none none true).1
      (by decide)).2.2.2,
   (deduct_credits_ledger_invariant [7] db0 7 (1 / 2) "usage test" none none true).2.1.1⟩

/-! ## C9: no sufficiency precondition; negative balances are reachable -/

/-- C9.  `deduct_credits` checks no sufficiency precondition: for an
existing user and a positive amount it records the usage transaction
and succeeds even when the amount exceeds the balance, driving the
ledger negative; concretely, the single-page endpoint only pre-checks
0.25 while charging `max(500, int(t*200)) * 0.0001`, so a run with 13
seconds of processing time against a balance of exactly 0.25 returns
200 and leaves the balance at −0.01. -/
theorem deduct_credits_no_precondition (users : List ℕ) (db : DB) (uid : ℕ)
    (amount : ℚ) (desc : String) (op : Option String) (tok : Option ℕ)
    (hmem : uid ∈ users) (_hpos : 0 < amount) :
    ((deduct_credits users db uid amount desc op tok true).1).isSome = true
    ∧ getCreditBalance (deduct_credits users db uid amount desc op tok true).2 uid
        = getCreditBalance db uid - amount
    ∧ (getCreditBalance db uid < amount →
        getCreditBalance (deduct_credits users db uid amount desc op tok true).2 uid < 0)
    ∧ (comprehensive_extract_single_page [7] db25 7 3 1 true true res13 true true).status = 200
    ∧ getCreditBalance
        (comprehensive_extract_single_page [7] db25 7 3 1 true true res13 true true).db 7
      = -(1 / 100) := by
  have hbal : getCreditBalance (deduct_credits users db uid amount desc op tok true).2 uid
      = getCreditBalance db uid - amount := by
    rw [((deduct_credits_ledger_invariant users db uid amount desc op tok true).1 hmem).2.2.2]
    rfl
  refine ⟨?_, hbal, ?_, by decide, by decide⟩
  · rw [((deduct_credits_ledger_invariant users db uid amount desc op tok true).1 hmem).1]
    rfl
  · intro hlt
    rw [hbal]
    exact sub_neg.mpr hlt

/-- Witness for C9: deducting 0.26 from a balance of 0.25 succeeds and
leaves the ledger negative. -/
theorem deduct_credits_no_precondition_witness :
    ((deduct_credits [7] db25 7 (13 / 50) "usage test" none none true).1).isSome = true
    ∧ getCreditBalance (deduct_credits [7] db25 7 (13 / 50) "usage test" none none true).2 7 < 0 :=
  ⟨(deduct_credits_no_precondition [7] db25 7 (13 / 50) "usage test" none none
      (by decide) (by decide)).1,
   (deduct_credits_no_precondition [7] db25 7 (13 / 50) "usage test" none none
      (by decide) (by decide)).2.2.1 (by decide)⟩

theorem has_sufficient_credits_true_iff (users : List ℕ) (db : DB) (uid : ℕ) (c : ℚ) :
    has_sufficient_credits users db uid c = true ↔
      uid ∈ users ∧ c ≤ getCreditBalance db uid := by
  simp [has_sufficient_credits]

theorem has_sufficient_credits_false_of_lt (users : List ℕ) (db : DB) (uid : ℕ) (c : ℚ)
    (h : getCreditBalance db uid < c) : has_sufficient_credits users db uid c = false := by
  rw [Bool.eq_false_iff]
  intro hcon
  exact absurd ((has_sufficient_credits_true_iff users db uid c).1 hcon).2 (not_le.mpr h)

/-! ## C3: at-most-once billing per single-page request -/

/-- C3.  A single-page comprehensive-extraction request appends at most
one transaction to the ledger, and it is a usage transaction of the
requesting user; a request that fails (drawing missing, page image
missing, smart extraction unsuccessful, or insufficient credits)
leaves the database — transactions and extracted rows — untouched. -/
theorem single_page_at_most_once_billing (users : List ℕ) (db : DB) (uid did page : ℕ)
    (df ie : Bool) (res : ComprehensiveResult) (c1 c2 : Bool) :
    (∃ l, (comprehensive_extract_single_page users db uid did page df ie res c1 c2).db.transactions
        = db.transactions ++ l
      ∧ l.length ≤ 1
      ∧ ∀ t ∈ l, t.user_id = uid ∧ t.txType = "usage")
    ∧ ((df = false ∨ ie = false ∨ smartSucceeded res = false
        ∨ has_sufficient_credits users db uid pageEstimate = false) →
      (comprehensive_extract_single_page users db uid did page df ie res c1 c2).db = db) := by
  constructor
  · cases df with
    | false => exact ⟨[], by simp [comprehensive_extract_single_page], by simp, by simp⟩
    | true =>
      cases ie with
      | false => exact ⟨[], by simp [comprehensive_extract_single_page], by simp, by simp⟩
      | true =>
        cases hsuf : has_sufficient_credits users db uid pageEstimate with
        | false =>
          exact ⟨[], by simp [comprehensive_extract_single_page, hsuf], by simp, by simp⟩
        | true =>
          have hmem : uid ∈ users :=
            ((has_sufficient_credits_true_iff users db uid pageEstimate).1 hsuf).1
          cases hse : res.smartExtraction with
          | none =>
            exact ⟨[], by simp [comprehensive_extract_single_page, hsuf, hse], by simp, by simp⟩
          | some smart =>
            cases hss : smart.success with
            | false =>
              exact ⟨[], by simp [comprehensive_extract_single_page, hsuf, hse, hss],
                by simp, by simp⟩
            | true =>
              cases c1 with
              | false =>
                exact ⟨[], by simp [comprehensive_extract_single_page, hsuf, hse, hss,
                  deduct_credits, hmem], by simp, by simp⟩
              | true =>
                refine ⟨[usageTx db uid
                    (((max 500 (pyTrunc (res.processing.totalTime * 200))).toNat : ℚ) * tokenUnitCost)
                    ("Comprehensive extraction (OCR+AI+NLP) - "
                      ++ toString (max 500 (pyTrunc (res.processing.totalTime * 200))).toNat
                      ++ " tokens")
                    (some "comprehensive_extraction")
                    (some (max 500 (pyTrunc (res.processing.totalTime * 200))).toNat)],
                  ?_, by simp, ?_⟩
                · cases c2 with
                  | false =>
                    simp [comprehensive_extract_single_page, hsuf, hse, hss,
                      deduct_credits, hmem, usageTx]
                  | true =>
                    simp [comprehensive_extract_single_page, hsuf, hse, hss,
                      deduct_credits, hmem, usageTx]
                · intro t ht
                  rw [List.mem_singleton] at ht
                  subst ht
                  exact ⟨rfl, rfl⟩
  · intro h
    cases df with
    | false => simp [comprehensive_extract_single_page]
    | true =>
      cases ie with
      | false => simp [comprehensive_extract_single_page]
      | true =>
        cases hsuf : has_sufficient_credits users db uid pageEstimate with
        | false => simp [comprehensive_extract_single_page, hsuf]
        | true =>
          have hsf : smartSucceeded res = false := by
            rcases h with h | h | h | h
            · cases h
            · cases h
            · exact h
            · rw [hsuf] at h; cases h
          cases hse : res.smartExtraction with
          | none => simp [comprehensive_extract_single_page, hsuf, hse]
          | some smart =>
            have hss : smart.success = false := by
              simpa [smartSucceeded, hse] using hsf
            simp [comprehensive_extract_single_page, hsuf, hse, hss]

/-- Witness for C3: a request with insufficient credits leaves the
database unchanged. -/
theorem single_page_at_most_once_billing_witness :
    (comprehensive_extract_single_page [7] dbEmpty 7 3 1 true true res0 true true).db = dbEmpty :=
  (single_page_at_most_once_billing [7] dbEmpty 7 3 1 true true res0 true true).2
    (Or.inr (Or.inr (Or.inr (by decide))))

/-! ## C4: prepaid metering -/

/-- C4, amended.  For a request that passes the endpoint's earlier
validation (drawing found; for the single-page endpoint, the page image
present), a balance below the estimated cost (0.25, resp.
`total_pages * 0.25` with `total_pages or 1`) yields exactly the 402
response with the database untouched, no extraction performed and
nothing persisted.  (A request failing the earlier validation is
rejected 404 before the credit check — see the counterexample.) -/
theorem insufficient_credits_402 (users : List ℕ) (db : DB) (uid did page : ℕ)
    (res : ComprehensiveResult) (c1 c2 : Bool) (total_pages : ℕ) (img : ℕ → Bool)
    (pres : ℕ → ComprehensiveResult) (cOk : Bool) :
    (getCreditBalance db uid < pageEstimate →
      comprehensive_extract_single_page users db uid did page true true res c1 c2
        = ⟨402, db, 0, 0⟩)
    ∧ (getCreditBalance db uid
        < (((if total_pages = 0 then 1 else total_pages) : ℕ) : ℚ) * pageEstimate →
      comprehensive_extract_all_pages users db uid did true total_pages img pres cOk
        = ⟨402, db, 0, 0, 0⟩) := by
  constructor
  · intro h
    have hsuf := has_sufficient_credits_false_of_lt users db uid pageEstimate h
    simp only [comprehensive_extract_single_page]
    rw [hsuf]
    simp
  · intro h
    have hsuf := has_sufficient_credits_false_of_lt users db uid
      ((((if total_pages = 0 then 1 else total_pages) : ℕ) : ℚ) * pageEstimate) h
    simp only [comprehensive_extract_all_pages]
    rw [hsuf]
    simp

/-- Counterexample to C4 as stated: a request whose balance is below
the estimated cost but whose drawing is missing is answered 404, not
402. -/
theorem insufficient_credits_402_counterexample :
    getCreditBalance dbEmpty 7 < pageEstimate
    ∧ (comprehensive_extract_single_page [7] dbEmpty 7 3 1 false true res0 true true).status = 404
    ∧ (comprehensive_extract_single_page [7] dbEmpty 7 3 1 false true res0 true true).status
        ≠ 402 :=
  ⟨by decide, by decide, by decide⟩

/-- Witness for the amended C4 on both endpoints at a zero balance. -/
theorem insufficient_credits_402_witness :
    comprehensive_extract_single_page [7] dbEmpty 7 3 1 true true res0 true true
      = ⟨402, dbEmpty, 0, 0⟩
    ∧ comprehensive_extract_all_pages [7] dbEmpty 7 3 true 2 (fun _ => true) (fun _ => res0) true
      = ⟨402, dbEmpty, 0, 0, 0⟩ :=
  ⟨(insufficient_credits_402 [7] dbEmpty 7 3 1 res0 true true 2 (fun _ => true)
      (fun _ => res0) true).1 (by decide),
   (insufficient_credits_402 [7] dbEmpty 7 3 1 res0 true true 2 (fun _ => true)
      (fun _ => res0) true).2 (by decide)⟩

/-! ## C1: persistence vs. credit deduction -/

/-- C1, amended.  The extracted rows and the credit deduction are *not*
committed in one transaction: `deduct_credits` commits the usage
transaction on its own before the endpoint commits the rows.  One
direction survives: extracted rows are only ever committed after the
deduction has durably succeeded — so a run can never persist rows
without the deduction, while the converse failure (deduction durable,
rows absent) is reachable (see the counterexample). -/
theorem rows_imply_deduction (users : List ℕ) (db : DB) (uid did page : ℕ)
    (df ie : Bool) (res : ComprehensiveResult) (c1 c2 : Bool) :
    (comprehensive_extract_single_page users db uid did page df ie res c1 c2).db.extracted.length
        ≠ db.extracted.length →
    ∃ tx : LedgerTx,
      (comprehensive_extract_single_page users db uid did page df ie res c1 c2).db.transactions
        = db.transactions ++ [tx]
      ∧ tx.txType = "usage" ∧ tx.user_id = uid ∧ tx.amount < 0 := by
  intro hrows
  cases df with
  | false => exact absurd (by simp [comprehensive_extract_single_page]) hrows
  | true =>
    cases ie with
    | false => exact absurd (by simp [comprehensive_extract_single_page]) hrows
    | true =>
      cases hsuf : has_sufficient_credits users db uid pageEstimate with
      | false =>
        exact absurd (by simp [comprehensive_extract_single_page, hsuf]) hrows
      | true =>
        have hmem : uid ∈ users :=
          ((has_sufficient_credits_true_iff users db uid pageEstimate).1 hsuf).1
        cases hse : res.smartExtraction with
        | none =>
          exact absurd (by simp [comprehensive_extract_single_page, hsuf, hse]) hrows
        | some smart =>
          cases hss : smart.success with
          | false =>
            exact absurd (by simp [comprehensive_extract_single_page, hsuf, hse, hss]) hrows
          | true =>
            have hcost : (0 : ℚ)
                < ((max 500 (pyTrunc (res.processing.totalTime * 200))).toNat : ℚ) * tokenUnitCost := by
              have h500 : (500 : ℕ) ≤ (max 500 (pyTrunc (res.processing.totalTime * 200))).toNat := by
                simp
              have : (500 : ℚ) ≤ ((max 500 (pyTrunc (res.processing.totalTime * 200))).toNat : ℚ) := by
                exact_mod_cast h500
              have hq : (0 : ℚ) < tokenUnitCost := by norm_num [tokenUnitCost]
              nlinarith
            cases c1 with
            | false =>
              exact absurd (by simp [comprehensive_extract_single_page, hsuf, hse, hss,
                deduct_credits, hmem]) hrows
            | true =>
              cases c2 with
              | false =>
                exact absurd (by simp [comprehensive_extract_single_page, hsuf, hse, hss,
                  deduct_credits, hmem]) hrows
              | true =>
                refine ⟨usageTx db uid
                    (((max 500 (pyTrunc (res.processing.totalTime * 200))).toNat : ℚ) * tokenUnitCost)
                    ("Comprehensive extraction (OCR+AI+NLP) - "
                      ++ toString (max 500 (pyTrunc (res.processing.totalTime * 200))).toNat
                      ++ " tokens")
                    (some "comprehensive_extraction")
                    (some (max 500 (pyTrunc (res.processing.totalTime * 200))).toNat),
                  ?_, rfl, rfl, ?_⟩
                · simp [comprehensive_extract_single_page, hsuf, hse, hss,
                    deduct_credits, hmem, usageTx]
                · simp only [usageTx]
                  exact neg_neg_of_pos hcost

/-- Witness for the amended C1: a fully successful run persists its row
only together with the usage transaction. -/
theorem rows_imply_deduction_witness :
    ∃ tx : LedgerTx,
      (comprehensive_extract_single_page [7] db0 7 3 1 true true res0 true true).db.transactions
        = db0.transactions ++ [tx]
      ∧ tx.txType = "usage" ∧ tx.user_id = 7 ∧ tx.amount < 0 :=
  rows_imply_deduction [7] db0 7 3 1 true true res0 true true (by decide)

set_option maxRecDepth 10000 in
/-- Counterexample to C1: deduction and row persistence are two
commits.  With the deduction's commit succeeding and the endpoint's
row commit failing, the run answers 500 with the credits durably
deducted (a second, usage transaction; the balance dropped) and no
extracted row persisted, although the smart extraction succeeded with
one item. -/
theorem single_commit_split_counterexample :
    (comprehensive_extract_single_page [7] db0 7 3 1 true true res0 true false).status = 500
    ∧ (comprehensive_extract_single_page [7] db0 7 3 1 true true res0 true false).db.transactions.length = 2
    ∧ getCreditBalance (comprehensive_extract_single_page [7] db0 7 3 1 true true res0 true false).db 7
        < getCreditBalance db0 7
    ∧ (comprehensive_extract_single_page [7] db0 7 3 1 true true res0 true false).db.extracted.length = 0
    ∧ smart0.success = true ∧ smart0.extractedItems.length = 1 :=
  ⟨by decide, by decide, by decide, by decide, by decide, by decide⟩

/-! ## C2: bulk vs. single-page consistency -/

set_option maxRecDepth 10000 in
/-- C2 exposes a defect: on the same drawing, page, divisions, balance
and (successful, one-item) extraction result, the single-page endpoint
persists one `ExtractedData` row and one usage transaction and reports
one saved item, while the bulk endpoint — whose per-page save
evaluates the unbound name `self`, raising `NameError` into the
per-page handler — persists nothing, deducts nothing, reports zero
processed pages, yet still answers 200.  The page was processed (one
service call) and silently skipped. -/
theorem bulk_skips_successful_pages :
    (comprehensive_extract_single_page [7] db0 7 3 1 true true res0 true true).status = 200
    ∧ (comprehensive_extract_single_page [7] db0 7 3 1 true true res0 true true).savedCount = 1
    ∧ (comprehensive_extract_single_page [7] db0 7 3 1 true true res0 true true).db.extracted.length = 1
    ∧ (comprehensive_extract_single_page [7] db0 7 3 1 true true res0 true true).db.transactions.length = 2
    ∧ (comprehensive_extract_all_pages [7] db0 7 3 true 1 (fun _ => true) (fun _ => res0)
        true).status = 200
    ∧ (comprehensive_extract_all_pages [7] db0 7 3 true 1 (fun _ => true) (fun _ => res0)
        true).db.extracted.length = 0
    ∧ (comprehensive_extract_all_pages [7] db0 7 3 true 1 (fun _ => true) (fun _ => res0)
        true).db.transactions.length = 1
    ∧ (comprehensive_extract_all_pages [7] db0 7 3 true 1 (fun _ => true) (fun _ => res0)
        true).processedPages = 0
    ∧ (comprehensive_extract_all_pages [7] db0 7 3 true 1 (fun _ => true) (fun _ => res0)
        true).extractionCalls = 1 :=
  ⟨by decide, by decide, by decide, by decide, by decide, by decide, by decide, by decide,
   by decide⟩

end HiLyte
